import Mathlib

/- Shallow embedding of the symbolic bytecode interpreter of pytype (src/pytype/vm.py).
   External collaborators of vm.py (the cfg library, state.py, slots.py,
   compare.py, the converter and the attribute handler) are abstracted as
   oracle fields of an Env record; the control flow of vm.py itself is translated
   literally. -/

namespace Pytype

/-- A CFG node (cfg.CFGNode), identified by its id. -/
abbrev Node := Nat

/-- A cfg.Binding of an operand Variable. A binding is identified with the id
of its abstract value (binding.data); the embedded code only inspects data. -/
abbrev B := Nat

/-- A cfg.Variable holding operand values, as the list of its bindings. -/
abbrev Var := List B

/-- A binding added to a result Variable by AddBinding or PasteBinding:
its value (data), its source set, and the node it was added at. -/
structure RB where
  data : B
  sources : List B
  node : Node
  deriving DecidableEq, Repr

/-- A result Variable built up by AddBinding/PasteBinding calls. -/
abbrev RVar := List RB

/-- The abnormal-completion signal strings stored in FrameState.why:
return, exception, reraise, break, continue, yield, NoReturn. -/
inductive Why
  | ret
  | exc
  | reraise
  | brk
  | cont
  | yld
  | noReturn
  deriving DecidableEq, Repr

/-- The exceptions raised by function.call_function: DictKeyMissing and
FailedFunctionCall. Both carry a rank modelling their ordering (e gt error). -/
inductive CallErr
  | dictKeyMissing (rank : Nat)
  | failedCall (rank : Nat)
  deriving DecidableEq, Repr

/-- Rank of a call error, used for the "e gt error" comparison. -/
def CallErr.rank : CallErr → Nat
  | .dictKeyMissing r => r
  | .failedCall r => r

/-- The running maximum of saved call errors ("if e gt error: error = e"). -/
def maxErr : Option CallErr → CallErr → Option CallErr
  | none, e => some e
  | some e0, e => some (if e0.rank < e.rank then e else e0)

/-- A diagnostic recorded in the error log, one constructor per errorlog
method reached by the embedded code. -/
inductive Diag
  | attributeError (b : B) (attr : String)
  | unsupportedOperands (name : String) (x y : Var)
  | invalidFunctionCall (e : CallErr)
  | badUnpacking (actualCount expectedCount : Nat)
  | nameError (name : String) (details : Option String)
  deriving DecidableEq, Repr

/-- A single lookup-and-call attempt made by binary-operator dispatch:
left operand binding, right operand binding, and the magic-method name. -/
structure Attempt where
  left : B
  right : B
  attr : String
  deriving DecidableEq, Repr

/-- Oracle environment abstracting everything vm.py calls into: the converter
constants, the attribute handler, the cfg reachability queries, slots tables,
function calling, and the fields of the current frame. The logic of vm.py is written
over an arbitrary Env. -/
structure Env where
  unsolvable : B
  emptyVal : B
  noReturnVal : B
  anyObjectVal : B
  boolVal : B
  intVal : B
  boolValues : Option Bool → B
  getAttr : Node → B → String → Option B → Node × Option Var
  hasComb : Node → List B → Bool
  reverseName : String → Option String
  isAmbiguous : B → Bool
  clsOf : B → Option Nat
  mro : Nat → List Nat
  base : Nat → Nat
  hasMember : Nat → String → Bool
  isClass : B → Bool
  callExcept : Node → Var → B → Except CallErr (Node × RVar)
  callOk : Node → Var → List Var → Node × RVar
  getReturn : Node → CallErr → Node × RVar
  cmpRelFn : String → B → B → Except Unit (Option Bool)
  isConstBool : B → Option Bool
  compatibleWith : B → Bool → Bool
  literalSeq : B → Option (List Var)
  expand : Var → Var
  buildList : Node → List Var → Var
  buildListOfType : Node → Var → Var
  buildContent : List Var → Var
  iteratorOf : Var → B
  joinNodes : List Node → Node
  hasStrictNoneOrigins : B → Bool
  isConcreteNonStr : B → Bool
  abstractOf : B → B
  isDeleted : B → Bool
  callselfTop : Option Var
  reportErrors : Bool
  frameFunc : Option B
  locals : String → Option Var
  annots : String → Option Var
  globals : String → Option Var
  specialBuiltins : String → Option Var
  builtins : String → Option Var
  hasUnknownWildcardImports : Bool
  lateAnnotActive : Bool
  lateAnnotVal : String → B
  nameErrorDetails : String → Option String
  allowedReturns : Option Nat
  initClass : Node → Nat → RVar

/-- Modelled from the spec: the state.py module of this repository (FrameState) is not under src.
Spec sections 2 and 3 describe a FrameState as (node, operand stack, block
stack, completion signal), with set_exception recording a freshly synthesized
exception. The block stack is omitted here; fresh exception tokens are drawn
from a counter field so that freshness is expressible. -/
structure FrameState where
  node : Node
  dataStack : List Var
  exception : Option Nat
  nextExc : Nat
  why : Option Why
  deriving DecidableEq, Repr

/-- Modelled from the spec: FrameState.set_why stores the completion signal. -/
def setWhy (st : FrameState) (w : Why) : FrameState :=
  { st with why := some w }

/-- Modelled from the spec: FrameState.set_exception records a fresh
exception, distinct from every token handed out before. -/
def setException (st : FrameState) : FrameState :=
  { st with exception := some st.nextExc, nextExc := st.nextExc + 1 }

/-- Modelled from the spec: FrameState.popn discards the top n stack items
(the discarded values are unused by byte_RAISE_VARARGS). -/
def popn (st : FrameState) (n : Nat) : FrameState :=
  { st with dataStack := st.dataStack.drop n }

/-- vm.byte_RAISE_VARARGS: pop the arguments; a bare raise with an active
exception sets the reraise signal and keeps the exception, anything else
records a fresh exception and sets the exception signal. -/
def byteRaiseVarargs (st : FrameState) (argc : Nat) : FrameState :=
  let st1 := popn st argc
  if argc = 0 ∧ st1.exception.isSome then setWhy st1 .reraise
  else setWhy (setException st1) .exc

/-- vm.run_instruction after dispatching to the opcode handler (logging and
the opcode counter are elided): a why of reraise or NoReturn is converted to
exception before the state is returned. -/
def runInstruction (bytecodeFn : FrameState → FrameState) (st : FrameState) :
    FrameState :=
  let st1 := bytecodeFn st
  if st1.why = some .reraise ∨ st1.why = some .noReturn then setWhy st1 .exc
  else st1

/-- The per-block outcome observed by vm.run_frame: the final why of the
final why of the block (none when the block ran to completion) and its node. -/
structure BlockOutcome where
  why : Option Why
  node : Node
  deriving DecidableEq, Repr

/-- The return_nodes list collected by vm.run_frame: the node of every block
that ended with a completion signal. -/
def returnNodes (outcomes : List BlockOutcome) : List Node :=
  (outcomes.filter (fun o => o.why.isSome)).map (fun o => o.node)

/-- The can_return flag of vm.run_frame: some block ended via return or
yield. -/
def canReturn (outcomes : List BlockOutcome) : Bool :=
  outcomes.any (fun o => decide (o.why = some Why.ret ∨ o.why = some Why.yld))

/-- vm._set_frame_return: when the frame has a declared return annotation
(allowed_returns), an instance of the annotation is pasted instead of the
variable handed in. -/
def setFrameReturn (env : Env) (node : Node) (var : RVar) : RVar :=
  match env.allowedReturns with
  | some t => env.initClass node t
  | none => var

/-- vm.run_frame, final return-variable logic: acc is the
return_variable of the frame as accumulated by the block loop (asserted empty by the
source in both special branches). If no block completed, one unsolvable
binding is added at the entry node; if blocks completed but none via return
or yield, the NoReturn variable is passed through _set_frame_return at the
join of the completing nodes. -/
def runFrameReturn (env : Env) (node : Node) (outcomes : List BlockOutcome)
    (acc : RVar) : RVar :=
  if returnNodes outcomes = [] then acc ++ [⟨env.unsolvable, [], node⟩]
  else if canReturn outcomes = false then
    let n := env.joinNodes (returnNodes outcomes)
    acc ++ setFrameReturn env n [⟨env.noReturnVal, [], n⟩]
  else acc

/-- vm._filter_none_and_paste_bindings: paste bindings into the result,
turning bindings with no strictly visible origin into unsolvable, and
optionally discarding concrete non-string values. -/
def filterNoneAndPaste (env : Env) (node : Node) (bs : List B) (v : RVar)
    (discard : Bool) : RVar :=
  bs.foldl (fun acc b =>
    if env.hasStrictNoneOrigins b then
      if discard ∧ env.isConcreteNonStr b then
        acc ++ [⟨env.abstractOf b, [b], node⟩]
      else acc ++ [⟨b, [b], node⟩]
    else acc ++ [⟨env.unsolvable, [b], node⟩]) v

/-- Whether a binding of obj lacks the attribute: the attribute handler
returned None or a variable without bindings (the loop check of
vm._retrieve_attr). -/
def attrAbsent (env : Env) (node : Node) (val : B) (attr : String) : Bool :=
  match (env.getAttr node val attr (some val)).2 with
  | none => true
  | some bs => bs.isEmpty

/-- The loop of vm._retrieve_attr: resolve the attribute independently for
each binding of obj, collecting the pasted results, the nodes of successful
lookups, and the bindings lacking the attribute. -/
def retrieveAttrLoop (env : Env) (node : Node) (attr : String) :
    List B → RVar × List Node × List B
  | [] => ([], [], [])
  | val :: rest =>
    let r := env.getAttr node val attr (some val)
    let acc := retrieveAttrLoop env node attr rest
    if attrAbsent env node val attr then (acc.1, acc.2.1, val :: acc.2.2)
    else
      (filterNoneAndPaste env r.1 (r.2.getD []) [] false ++ acc.1,
       r.1 :: acc.2.1, acc.2.2)

/-- vm._retrieve_attr: the callself __class__ special case, then the
per-binding loop; with no successful lookup the result variable is None. -/
def retrieveAttr (env : Env) (node : Node) (obj : Var) (attr : String) :
    Node × Option RVar × List B :=
  if attr = "__class__" ∧ env.callselfTop = some obj then
    (node, some [⟨env.unsolvable, [], node⟩], [])
  else
    let r := retrieveAttrLoop env node attr obj
    if r.2.1.isEmpty then (node, none, r.2.2)
    else (env.joinNodes r.2.1, some r.1, r.2.2)

/-- vm._attribute_error_detection: report each lacking binding whose
combination (together with the function binding of the frame, when present) is
reachable at the query node. -/
def attributeErrorDetection (env : Env) (node : Node) (attr : String)
    (errors : List B) : List Diag :=
  if env.reportErrors = false then []
  else
    (errors.filter (fun e => env.hasComb node (e :: env.frameFunc.toList))).map
      (fun e => Diag.attributeError e attr)

/-- vm.load_attr: retrieve the attribute, run attribute-error detection on
the lacking bindings, and fall back to an unsolvable result. -/
def loadAttr (env : Env) (node : Node) (obj : Var) (attr : String) :
    Node × RVar × List Diag :=
  let r := retrieveAttr env node obj attr
  (r.1, r.2.1.getD [⟨env.unsolvable, [], r.1⟩],
   attributeErrorDetection env node attr r.2.2)

/-- vm.load_attr_noerror: retrieve the attribute and ignore the lacking
bindings. -/
def loadAttrNoerror (env : Env) (node : Node) (obj : Var) (attr : String) :
    Node × Option RVar :=
  ((retrieveAttr env node obj attr).1, (retrieveAttr env node obj attr).2.1)

/-- vm._overrides: subcls is a subclass of supercls (supercls is in its mro)
and some class strictly before supercls in the mro of base(subcls) defines
the attribute. -/
def overrides (env : Env) (subcls supercls : Option Nat) (attr : String) :
    Bool :=
  match subcls, supercls with
  | some sub, some sup =>
    if sup ∈ env.mro sub then
      ((env.mro (env.base sub)).takeWhile (fun c => c ≠ env.base sup)).any
        (fun c => env.hasMember c attr)
    else false
  | _, _ => false

/-- The options list of vm._call_binop_on_bindings, in the order the
forward and reflected magic methods are attempted; empty when the
ambiguous-left-operand early return fires. -/
def binopOptions (env : Env) (name : String) (xval yval : B) :
    List Attempt :=
  match env.reverseName name with
  | none => [⟨xval, yval, name⟩]
  | some rn =>
    if env.isAmbiguous xval then []
    else
      let opts : List Attempt := [⟨xval, yval, name⟩, ⟨yval, xval, rn⟩]
      if overrides env (env.clsOf yval) (env.clsOf xval) rn then opts.reverse
      else opts

/-- The attempt loop of vm._call_binop_on_bindings: look up the magic method
of each option; call it when found; on a failed call save the worst error and
keep going. Left means no option returned (with the saved error, if any). -/
def tryOptions (env : Env) :
    Node → List Attempt → Option CallErr →
    Option CallErr ⊕ (Node × RVar)
  | _, [], err => Sum.inl err
  | node, a :: rest, err =>
    let valself : Option B :=
      if env.isClass a.left ∧ a.attr = "__getitem__" then none else some a.left
    let r := env.getAttr node a.left a.attr valself
    match r.2 with
    | some bs =>
      if bs.isEmpty then tryOptions env r.1 rest err
      else
        match env.callExcept r.1 bs a.right with
        | .ok res => Sum.inr res
        | .error e => tryOptions env r.1 rest (maxErr err e)
    | none => tryOptions env r.1 rest err

/-- vm._call_binop_on_bindings: the ambiguous-left-operand early return,
otherwise run the options; re-raise the saved error when every option
failed, and return None when no option was applicable. -/
def callBinopOnBindings (env : Env) (node : Node) (name : String)
    (xval yval : B) : Except CallErr (Node × Option RVar) :=
  if (env.reverseName name).isSome ∧ env.isAmbiguous xval then
    .ok (node, some [⟨env.unsolvable, [xval, yval], node⟩])
  else
    match tryOptions env node (binopOptions env name xval yval) none with
    | Sum.inr (n, v) => .ok (n, some v)
    | Sum.inl (some e) => .error e
    | Sum.inl none => .ok (node, none)

/-- The operand pairings of vm.call_binary_operator, in nested-loop order. -/
def binopPairs (x y : Var) : List (B × B) :=
  x.flatMap (fun xv => y.map (fun yv => (xv, yv)))

/-- The pairing loop of vm.call_binary_operator: call each pairing on the
original node, swallowing call failures (keeping the worst) and collecting
the nodes and results of successful pairings. -/
def binopLoop (env : Env) (node : Node) (name : String) :
    List (B × B) → Option CallErr → List Node × List RVar × Option CallErr
  | [], err => ([], [], err)
  | p :: rest, err =>
    match callBinopOnBindings env node name p.1 p.2 with
    | .error e => binopLoop env node name rest (maxErr err e)
    | .ok (n, some ret) =>
      let (nodes, results, err2) := binopLoop env node name rest err
      (n :: nodes, ret :: results, err2)
    | .ok (_, none) => binopLoop env node name rest err

/-- vm.call_binary_operator: try every pairing of the operand variables;
only if the joined result is empty and report_errors is set is a diagnostic
considered: unsupported_operands when no pairing raised, otherwise the saved
error decides between a DictKeyMissing return and invalid_function_call. -/
def callBinaryOperator (env : Env) (node : Node) (name : String)
    (x y : Var) (reportErrors : Bool) : Node × RVar × List Diag :=
  let r := binopLoop env node name (binopPairs x y) none
  let node1 := if r.1.isEmpty then node else env.joinNodes r.1
  let result := r.2.1.flatten
  if result.isEmpty ∧ reportErrors then
    match r.2.2 with
    | none =>
      (node1, [⟨env.unsolvable, [], node1⟩],
       if env.reportErrors then [Diag.unsupportedOperands name x y] else [])
    | some e =>
      match e with
      | .dictKeyMissing _ =>
        ((env.getReturn node1 e).1, (env.getReturn node1 e).2, [])
      | .failedCall _ =>
        ((env.getReturn node1 e).1, (env.getReturn node1 e).2,
         if env.reportErrors then [Diag.invalidFunctionCall e] else [])
  else (node1, result, [])

/-- The pairing loop of vm._cmp_rel: classify each pairing with the built-in
comparison; a CmpTypeError logs unsupported_operands when the pairing is a
reachable combination; unclassified pairings go to the leftover variables. -/
def cmpRelLoop (env : Env) (node : Node) (opName : String) (x y : Var) :
    List (B × B) → RVar × Var × Var × List Diag
  | [] => ([], [], [], [])
  | p :: rest =>
    let (ret, lx, ly, diags) := cmpRelLoop env node opName x y rest
    match env.cmpRelFn opName p.1 p.2 with
    | .error _ =>
      (ret, p.1 :: lx, p.2 :: ly,
       (if env.hasComb node [p.1, p.2] then
          [Diag.unsupportedOperands opName x y]
        else []) ++ diags)
    | .ok none => (ret, p.1 :: lx, p.2 :: ly, diags)
    | .ok (some v) =>
      (⟨env.boolValues (some v), [p.1, p.2], node⟩ :: ret, lx, ly, diags)

/-- vm._cmp_rel: run the built-in comparison over all pairings, then send the
leftovers through the general binary-operator path on the dunder name. -/
def cmpRel (env : Env) (node : Node) (opName : String) (x y : Var) :
    Node × RVar × List Diag :=
  let r := cmpRelLoop env node opName x y (binopPairs x y)
  if r.2.1.isEmpty then (node, r.1, r.2.2.2)
  else
    let dunder := "__" ++ opName.toLower ++ "__"
    let r2 := callBinaryOperator env node dunder r.2.1 r.2.2.1 false
    (r2.1, r.1 ++ r2.2.1, r.2.2.2 ++ r2.2.2)

/-- vm._coerce_to_bool: map each binding to a bool value, using constant
bools and compatibility with True and False. -/
def coerceToBool (env : Env) (node : Node) (var : RVar) (trueVal : Bool) :
    RVar :=
  var.map (fun b =>
    let v := b.data
    let const : Option Bool :=
      match env.isConstBool v with
      | some pv => some (pv = trueVal)
      | none =>
        if env.compatibleWith v true = false then some (!trueVal)
        else if env.compatibleWith v false = false then some trueVal
        else none
    ⟨env.boolValues const, [b.data], node⟩)

/-- vm._get_iter: try calling an __iter__ method; when seq has none, wrap a
call of __getitem__ with an int argument as an ad hoc Iterator; when neither
exists the iterator variable is empty, and (under report_errors) each
reachable binding lacking both is reported against __iter__. -/
def getIter (env : Env) (node : Node) (seq : Var) (reportErrors : Bool) :
    Node × RVar × List Diag :=
  let a := loadAttrNoerror env node seq "__iter__"
  match a.2 with
  | some f =>
    let c := env.callOk a.1 (f.map RB.data) []
    (c.1, c.2, [])
  | none =>
    let g := retrieveAttr env a.1 seq "__getitem__"
    let r3 : Node × RVar :=
      match g.2.1 with
      | some gf =>
        let c := env.callOk g.1 (gf.map RB.data) [[env.intVal]]
        (c.1, [⟨env.iteratorOf (c.2.map RB.data), [], c.1⟩])
      | none => (g.1, [])
    let diags :=
      if reportErrors ∧ env.reportErrors then
        (g.2.2.filter (fun m => env.hasComb r3.1 [m])).map
          (fun m => Diag.attributeError m "__iter__")
      else []
    (r3.1, r3.2, diags)

/-- vm._cmp_in: try __contains__ through the binary-operator path, coercing
a non-empty result to bool; without a __contains__ fall back to the iterator
protocol, reporting unsupported_operands when the iterator variable has
fewer bindings than seq, and produce a plain boolean. -/
def cmpIn (env : Env) (node : Node) (item seq : Var) (trueVal : Bool) :
    Node × RVar × List Diag :=
  let a := loadAttrNoerror env node seq "__contains__"
  match a.2 with
  | some _ =>
    let r := callBinaryOperator env a.1 "__contains__" seq item true
    let ret2 :=
      if r.2.1.isEmpty then r.2.1 else coerceToBool env r.1 r.2.1 trueVal
    (r.1, ret2, r.2.2)
  | none =>
    let g := getIter env a.1 seq false
    let diags2 :=
      if g.2.1.length < seq.length then
        g.2.2 ++ [Diag.unsupportedOperands "__contains__" seq item]
      else g.2.2
    (g.1, [⟨env.boolVal, [], g.1⟩], diags2)

/-- vm._call: load the method as an attribute (reporting attribute errors)
and call it. -/
def callMethod (env : Env) (node : Node) (obj : Var) (methodName : String)
    (args : List Var) : Node × RVar × List Diag :=
  let (n1, method, diags) := loadAttr env node obj methodName
  let (n2, ret) := env.callOk n1 (method.map RB.data) args
  (n2, ret, diags)

/-- vm._restructure_tuple: collapse the middle of a literal tuple into a
list variable between the pre and post elements. -/
def restructureTuple (env : Env) (node : Node) (tup : List Var)
    (pre post : Nat) : List Var :=
  let before := tup.take pre
  let after := if 0 < post then tup.drop (tup.length - post) else []
  let rest :=
    if 0 < post then (tup.drop pre).take (tup.length - post - pre)
    else tup.drop pre
  before ++ [env.buildList node rest] ++ after

/-- The binding loop of vm._unpack_sequence: literal sequences of the right
length become options (restructured under a slurp); wrong-length literals
log bad_unpacking and, like non-literals, fall through to the iterator
path. -/
def unpackLoop (env : Env) (node : Node) (hasSlurp : Bool)
    (nBefore nAfterNat count : Nat) :
    List B → List (List Var) × Var × List Diag
  | [] => ([], [], [])
  | b :: rest =>
    let (options, nontuple, diags) :=
      unpackLoop env node hasSlurp nBefore nAfterNat count rest
    match env.literalSeq b with
    | some tup =>
      if tup.isEmpty then (options, b :: nontuple, diags)
      else if hasSlurp ∧ count ≤ tup.length then
        (restructureTuple env node tup nBefore nAfterNat :: options, nontuple,
         diags)
      else if tup.length = count then (tup :: options, nontuple, diags)
      else
        (options, b :: nontuple, Diag.badUnpacking tup.length count :: diags)
    | none => (options, b :: nontuple, diags)

/-- vm._unpack_sequence: pop the sequence, classify each binding, run the
iterator fallback for the non-literal bindings (count copies of the __next__
result, with a list-of-element-type slurp), build one value per target from
the transposed options, and replace empty values by the empty binding. The
returned list is in target order. -/
def unpackSequence (env : Env) (node : Node) (seq : Var) (nBefore : Nat)
    (nAfter : Int) : Node × List Var × List Diag :=
  let hasSlurp : Bool := -1 < nAfter
  let count : Nat := ((nBefore : Int) + nAfter + 1).toNat
  let (options, nontuple, diags) :=
    unpackLoop env node hasSlurp nBefore nAfter.toNat count (env.expand seq)
  let r2 : Node × List (List Var) × List Diag :=
    if nontuple.isEmpty then (node, options, diags)
    else
      let (n2, itr, dI) := getIter env node nontuple true
      let (n3, result, dC) := callMethod env n2 (itr.map RB.data) "__next__" []
      let option := List.replicate count (result.map RB.data)
      let option :=
        if hasSlurp then
          option.set nBefore (env.buildListOfType n3 (result.map RB.data))
        else option
      (n3, options ++ [option], diags ++ dI ++ dC)
  let (node2, options2, diags2) := r2
  let values : List Var :=
    if options2.isEmpty then []
    else
      (List.range count).map (fun i =>
        env.buildContent (options2.map (fun o => o.getD i [])))
  let values2 := values.map (fun v => if v.isEmpty then [env.emptyVal] else v)
  (node2, values2, diags2)

/-- The startswith test, written over the character list. -/
def strStartsWith (s pfx : String) : Bool :=
  s.data.take pfx.data.length = pfx.data

/-- Whether a name starts with exactly one underscore (vm._is_private). -/
def isPrivate (name : String) : Bool :=
  strStartsWith name "_" ∧ !(strStartsWith name "__")

/-- vm.load_local: the frame locals, falling back to an initialized
annotation (vm._load_annotation) for declared-but-undefined names. -/
def loadLocal (env : Env) (name : String) : Option Var :=
  match env.locals name with
  | some v => some v
  | none => env.annots name

/-- vm.load_builtin: the __undefined__ special value, then the special
builtins (including __any_object__), then the builtins module. -/
def loadBuiltin (env : Env) (name : String) : Option Var :=
  if name = "__undefined__" then some [env.emptyVal]
  else
    match
      (if name = "__any_object__" then some [env.anyObjectVal]
       else env.specialBuiltins name) with
    | some v => some v
    | none => env.builtins name

/-- vm.check_for_deleted: a name error (with no details) is logged when the
loaded variable contains a Deleted value; the value is pushed regardless. -/
def checkDeleted (env : Env) (name : String) (val : Var) : List Diag :=
  if val.any env.isDeleted then [Diag.nameError name none] else []

/-- vm._name_error_or_late_annotation: while resolving a forward-referenced
annotation a late placeholder is produced with no diagnostic; otherwise a
name error (with enriched details) is logged and Any is produced. -/
def nameErrorOrLateAnnot (env : Env) (name : String) : Var × List Diag :=
  if env.lateAnnotActive then ([env.lateAnnotVal name], [])
  else ([env.unsolvable], [Diag.nameError name (env.nameErrorDetails name)])

/-- vm.byte_LOAD_NAME: locals, then globals, then (for non-private names
only) builtins; when everything fails, private names and frames without
unknown wildcard imports go through name-error-or-late-annotation, and
otherwise a bare unsolvable is pushed. Returns the pushed variable and the
logged diagnostics. -/
def byteLoadName (env : Env) (name : String) : Var × List Diag :=
  match loadLocal env name with
  | some val => (val, checkDeleted env name val)
  | none =>
    match env.globals name with
    | some val => (val, checkDeleted env name val)
    | none =>
      match (if isPrivate name then none else loadBuiltin env name) with
      | some val => (val, checkDeleted env name val)
      | none =>
        if isPrivate name ∨ env.hasUnknownWildcardImports = false then
          nameErrorOrLateAnnot env name
        else ([env.unsolvable], [])

/-- The resolution chain claimed by the spec sentence for C7, as written:
locals, then globals, then builtins, each consulted unconditionally. -/
def loadNameClaimC7 (env : Env) (name : String) : Var × List Diag :=
  match loadLocal env name with
  | some val => (val, checkDeleted env name val)
  | none =>
    match env.globals name with
    | some val => (val, checkDeleted env name val)
    | none =>
      match loadBuiltin env name with
      | some val => (val, checkDeleted env name val)
      | none => nameErrorOrLateAnnot env name

/-- The amended resolution chain: one ordered lookup in which private names
skip the builtins step, and a failed lookup of a non-private name under
unknown wildcard imports yields unsolvable with no diagnostic. -/
def lookupChain (env : Env) (name : String) : Option Var :=
  (loadLocal env name).orElse (fun _ =>
    (env.globals name).orElse (fun _ =>
      if isPrivate name then none else loadBuiltin env name))

/-- The amended claim for C7 as a specification function. -/
def loadNameAmendedSpec (env : Env) (name : String) : Var × List Diag :=
  match lookupChain env name with
  | some val => (val, checkDeleted env name val)
  | none =>
    if isPrivate name = false ∧ env.hasUnknownWildcardImports then
      ([env.unsolvable], [])
    else nameErrorOrLateAnnot env name

/-- The variable pushed by byte_LOAD_NAME, written without any reference to
the diagnostic-details oracle. -/
def pushedVal (env : Env) (name : String) : Var :=
  match lookupChain env name with
  | some val => val
  | none =>
    if isPrivate name = false ∧ env.hasUnknownWildcardImports then
      [env.unsolvable]
    else if env.lateAnnotActive then [env.lateAnnotVal name]
    else [env.unsolvable]

/-- The claim wording of C2: some class strictly below the base of the class
of x in the mro of the base of the class of y defines the attribute. -/
def definesBelow (env : Env) (yc xc : Nat) (attr : String) : Bool :=
  ((env.mro (env.base yc)).takeWhile (fun c => c ≠ env.base xc)).any
    (fun c => env.hasMember c attr)

/-- A benign environment used to build the concrete instances below: every
oracle answers with the least informative value. -/
def defaultEnv : Env :=
  { unsolvable := 1000
    emptyVal := 1001
    noReturnVal := 1002
    anyObjectVal := 1003
    boolVal := 1004
    intVal := 1005
    boolValues := fun _ => 1006
    getAttr := fun n _ _ _ => (n, none)
    hasComb := fun _ _ => true
    reverseName := fun _ => none
    isAmbiguous := fun _ => false
    clsOf := fun _ => none
    mro := fun c => [c]
    base := fun c => c
    hasMember := fun _ _ => false
    isClass := fun _ => false
    callExcept := fun n _ _ => .ok (n, [])
    callOk := fun n _ _ => (n, [])
    getReturn := fun n _ => (n, [])
    cmpRelFn := fun _ _ _ => .ok none
    isConstBool := fun _ => none
    compatibleWith := fun _ _ => true
    literalSeq := fun _ => none
    expand := fun v => v
    buildList := fun _ _ => []
    buildListOfType := fun _ _ => []
    buildContent := fun ls => ls.flatten
    iteratorOf := fun _ => 1007
    joinNodes := fun _ => 0
    hasStrictNoneOrigins := fun _ => true
    isConcreteNonStr := fun _ => false
    abstractOf := fun b => b
    isDeleted := fun _ => false
    callselfTop := none
    reportErrors := true
    frameFunc := none
    locals := fun _ => none
    annots := fun _ => none
    globals := fun _ => none
    specialBuiltins := fun _ => none
    builtins := fun _ => none
    hasUnknownWildcardImports := false
    lateAnnotActive := false
    lateAnnotVal := fun _ => 1008
    nameErrorDetails := fun _ => none
    allowedReturns := none
    initClass := fun _ _ => [] }

/-- Concrete instance for C2: value 10 has class 1, value 20 has class 2,
class 2 subclasses class 1 and defines the reflected method. -/
def c2Env : Env :=
  { defaultEnv with
    reverseName := fun nm => if nm = "__add__" then some "__radd__" else none
    clsOf := fun v => if v = 10 then some 1 else if v = 20 then some 2 else none
    mro := fun c => if c = 2 then [2, 1] else [c]
    hasMember := fun c attr => c = 2 ∧ attr = "__radd__" }

/-- Concrete instance for C3: value 1 is ambiguous, value 2 is not, and the
operator has a reflected counterpart. -/
def c3Env : Env :=
  { defaultEnv with
    reverseName := fun nm => if nm = "__add__" then some "__radd__" else none
    isAmbiguous := fun v => v = 1 }

/-- Concrete instance for C5: values 1 and 2 both lack __contains__ and
__iter__ but both have __getitem__ (attribute value 10); calling anything
returns value 20; the ad hoc iterator is value 30. -/
def c5Env : Env :=
  { defaultEnv with
    getAttr := fun n v attr _ =>
      if attr = "__getitem__" ∧ (v = 1 ∨ v = 2) then (n, some [10])
      else (n, none)
    callOk := fun n _ _ => (n, [⟨20, [], n⟩])
    iteratorOf := fun _ => 30 }

/-- Concrete instance for C6: value 100 is a literal 4-tuple, value 200 an
indefinite iterable; both have __iter__ (40 and 50) producing iterators 41
and 51, whose __next__ methods (42 and 52) produce elements 61 and 60. -/
def c6Env : Env :=
  { defaultEnv with
    literalSeq := fun b => if b = 100 then some [[1], [2], [3], [4]] else none
    getAttr := fun n v attr _ =>
      if attr = "__iter__" ∧ v = 100 then (n, some [40])
      else if attr = "__iter__" ∧ v = 200 then (n, some [50])
      else if attr = "__next__" ∧ v = 41 then (n, some [42])
      else if attr = "__next__" ∧ v = 51 then (n, some [52])
      else (n, none)
    callOk := fun n f _ =>
      if f = [40] then (n, [⟨41, [], n⟩])
      else if f = [50] then (n, [⟨51, [], n⟩])
      else if f = [42] then (n, [⟨61, [], n⟩])
      else if f = [52] then (n, [⟨60, [], n⟩])
      else (n, []) }

/-- Concrete instance for C7: the builtins module defines the private name
_x (value 7); nothing else defines it. -/
def c7Env : Env :=
  { defaultEnv with builtins := fun nm => if nm = "_x" then some [7] else none }

/-- Concrete instance for C10: a frame with a declared return annotation
(class 5) whose instance is value 99; the NoReturn value is 7. -/
def c10Env : Env :=
  { defaultEnv with
    allowedReturns := some 5
    initClass := fun n _ => [⟨99, [], n⟩]
    noReturnVal := 7 }

/-- The bindings collected as lacking the attribute by the retrieve loop are
exactly the bindings of obj on which the attribute is absent. -/
theorem retrieveAttrLoop_missing (env : Env) (node : Node) (attr : String)
    (l : List B) : (retrieveAttrLoop env node attr l).2.2 =
      l.filter (fun v => attrAbsent env node v attr) := by
  induction l with
  | nil => rfl
  | cons val rest ih =>
    by_cases h : attrAbsent env node val attr = true
    · simp [retrieveAttrLoop, h, ih]
    · simp [retrieveAttrLoop, h, ih]

/-- Outside the callself special case, _retrieve_attr reports exactly the
bindings of obj lacking the attribute. -/
theorem retrieveAttr_missing (env : Env) (node : Node) (obj : Var)
    (attr : String) (hcs : ¬(attr = "__class__" ∧ env.callselfTop = some obj)) :
    (retrieveAttr env node obj attr).2.2 =
      obj.filter (fun v => attrAbsent env node v attr) := by
  rw [retrieveAttr, if_neg hcs]
  by_cases h : (retrieveAttrLoop env node attr obj).2.1.isEmpty
  · simp [h, retrieveAttrLoop_missing]
  · simp [h, retrieveAttrLoop_missing]

/-- Claim C1: outside the callself special case and with error reporting on,
load_attr emits an attribute-error diagnostic for a binding b if and only if
b is a binding of obj lacking the attribute and the query node has a
reachable combination containing b together with the function binding of
the frame when one exists; an unreachable lacking binding yields nothing. -/
theorem c1_attr_error_iff_reachable (env : Env) (node : Node) (obj : Var)
    (attr : String) (b : B)
    (hrep : env.reportErrors = true)
    (hcs : ¬(attr = "__class__" ∧ env.callselfTop = some obj)) :
    Diag.attributeError b attr ∈ (loadAttr env node obj attr).2.2 ↔
      b ∈ obj ∧ attrAbsent env node b attr = true ∧
        env.hasComb node (b :: env.frameFunc.toList) = true := by
  have hm := retrieveAttr_missing env node obj attr hcs
  simp only [loadAttr]
  rw [hm, attributeErrorDetection, hrep]
  simp only [Bool.true_eq_false, if_false, List.mem_map, List.mem_filter]
  constructor
  · rintro ⟨e, ⟨⟨he, habs⟩, hcomb⟩, heq⟩
    cases heq
    exact ⟨he, habs, hcomb⟩
  · rintro ⟨hb, habs, hcomb⟩
    exact ⟨b, ⟨⟨hb, habs⟩, hcomb⟩, rfl⟩

/-- Witness for C1 at a concrete environment. -/
theorem c1_witness :
    Diag.attributeError 5 "attr0" ∈ (loadAttr defaultEnv 0 [5] "attr0").2.2 ↔
      5 ∈ ([5] : Var) ∧ attrAbsent defaultEnv 0 5 "attr0" = true ∧
        defaultEnv.hasComb 0 (5 :: defaultEnv.frameFunc.toList) = true :=
  c1_attr_error_iff_reachable defaultEnv 0 [5] "attr0" 5 rfl (by decide)

/-- The _overrides check holds exactly when the subclass relation holds
strictly and the attribute is defined strictly below the superclass, given
that the mro of the subclass base starts with the class itself. -/
theorem overrides_iff (env : Env) (yc xc : Nat) (attr : String)
    (hwf : (env.mro (env.base yc)).head? = some (env.base yc)) :
    (overrides env (some yc) (some xc) attr = true ↔
      xc ∈ env.mro yc ∧ yc ≠ xc ∧ definesBelow env yc xc attr = true) := by
  have hred : overrides env (some yc) (some xc) attr =
      if xc ∈ env.mro yc then definesBelow env yc xc attr else false := rfl
  rw [hred]
  by_cases hm : xc ∈ env.mro yc
  · rw [if_pos hm]
    constructor
    · intro hd
      refine ⟨hm, ?_, hd⟩
      intro hyx
      subst hyx
      rw [definesBelow] at hd
      cases hmro : env.mro (env.base yc) with
      | nil => rw [hmro] at hd; simp at hd
      | cons a t =>
        rw [hmro] at hwf hd
        simp only [List.head?_cons, Option.some.injEq] at hwf
        subst hwf
        simp at hd
    · rintro ⟨_, _, hd⟩
      exact hd
  · rw [if_neg hm]
    simp [hm]

/-- Claim C2: with a reflected counterpart and a non-ambiguous left operand,
the reflected method of y is attempted before the forward method of x
exactly when the class of y is a strict subclass of the class of x and
defines the reflected method strictly below the class of x in the mro; in every other case
the forward method is attempted first. -/
theorem c2_reflected_priority (env : Env) (name rn : String) (x y : B)
    (xc yc : Nat)
    (hrn : env.reverseName name = some rn)
    (hamb : env.isAmbiguous x = false)
    (hyc : env.clsOf y = some yc) (hxc : env.clsOf x = some xc)
    (hwf : (env.mro (env.base yc)).head? = some (env.base yc)) :
    ((xc ∈ env.mro yc ∧ yc ≠ xc ∧ definesBelow env yc xc rn = true) →
       binopOptions env name x y =
         [⟨y, x, rn⟩, ⟨x, y, name⟩]) ∧
    (¬(xc ∈ env.mro yc ∧ yc ≠ xc ∧ definesBelow env yc xc rn = true) →
       binopOptions env name x y =
         [⟨x, y, name⟩, ⟨y, x, rn⟩]) := by
  have hov := overrides_iff env yc xc rn hwf
  constructor
  · intro hcond
    rw [binopOptions, hrn]
    simp only [hamb, Bool.false_eq_true, if_false, hyc, hxc]
    rw [if_pos (hov.mpr hcond)]
    rfl
  · intro hcond
    rw [binopOptions, hrn]
    simp only [hamb, Bool.false_eq_true, if_false, hyc, hxc]
    rw [if_neg (fun hc => hcond (hov.mp hc))]

/-- Witness for C2 at a concrete environment. -/
theorem c2_witness :
    ((1 ∈ c2Env.mro 2 ∧ 2 ≠ 1 ∧ definesBelow c2Env 2 1 "__radd__" = true) →
       binopOptions c2Env "__add__" 10 20 =
         [⟨20, 10, "__radd__"⟩, ⟨10, 20, "__add__"⟩]) ∧
    (¬(1 ∈ c2Env.mro 2 ∧ 2 ≠ 1 ∧ definesBelow c2Env 2 1 "__radd__" = true) →
       binopOptions c2Env "__add__" 10 20 =
         [⟨10, 20, "__add__"⟩, ⟨20, 10, "__radd__"⟩]) :=
  c2_reflected_priority c2Env "__add__" "__radd__" 10 20 1 2
    (by decide) (by decide) (by decide) (by decide) (by decide)

/-- Claim C3: with a reflected counterpart, an ambiguous left operand
binding and a non-ambiguous right one, binary-operator dispatch calls
neither magic method (the attempt list is empty) and immediately returns an
unsolvable variable whose binding has both operand bindings as its source
set, at the unchanged node. -/
theorem c3_ambiguous_left_skips_dispatch (env : Env) (node : Node)
    (name rn : String) (x y : B)
    (hrn : env.reverseName name = some rn)
    (hx : env.isAmbiguous x = true) (_hy : env.isAmbiguous y = false) :
    callBinopOnBindings env node name x y =
      .ok (node, some [⟨env.unsolvable, [x, y], node⟩]) ∧
    binopOptions env name x y = [] := by
  constructor
  · rw [callBinopOnBindings, if_pos]
    exact ⟨by rw [hrn]; rfl, hx⟩
  · rw [binopOptions, hrn]
    simp [hx]

/-- Witness for C3 at a concrete environment. -/
theorem c3_witness :
    callBinopOnBindings c3Env 0 "__add__" 1 2 =
      .ok (0, some [⟨c3Env.unsolvable, [1, 2], 0⟩]) ∧
    binopOptions c3Env "__add__" 1 2 = [] :=
  c3_ambiguous_left_skips_dispatch c3Env 0 "__add__" "__radd__" 1 2
    (by decide) (by decide) (by decide)

/-- Claim C8: a bare raise with an active exception sets the distinct
reraise signal and keeps the original exception; a bare raise without one
falls into the ordinary-raise branch (a fresh exception and the exception
signal, i.e. it is rejected as a re-raise); a raise with arguments records a
fresh exception, distinct from any active one, with the exception signal. -/
theorem c8_raise_varargs (st : FrameState) (argc : Nat)
    (hfresh : ∀ t, st.exception = some t → t < st.nextExc) :
    (∀ e, argc = 0 → st.exception = some e →
       (byteRaiseVarargs st argc).why = some Why.reraise ∧
       (byteRaiseVarargs st argc).exception = some e) ∧
    (argc = 0 → st.exception = none →
       (byteRaiseVarargs st argc).why = some Why.exc ∧
       (byteRaiseVarargs st argc).exception = some st.nextExc) ∧
    (0 < argc →
       (byteRaiseVarargs st argc).why = some Why.exc ∧
       (byteRaiseVarargs st argc).exception = some st.nextExc ∧
       (byteRaiseVarargs st argc).exception ≠ st.exception) := by
  refine ⟨?_, ?_, ?_⟩
  · intro e h0 he
    subst h0
    simp [byteRaiseVarargs, popn, setWhy, he]
  · intro h0 he
    subst h0
    simp [byteRaiseVarargs, popn, setWhy, setException, he]
  · intro hpos
    have h0 : ¬(argc = 0 ∧ (popn st argc).exception.isSome) := by
      intro h
      omega
    rw [byteRaiseVarargs, if_neg h0]
    refine ⟨rfl, rfl, ?_⟩
    cases he : st.exception with
    | none => simp [setWhy, setException, popn]
    | some t =>
      have ht := hfresh t he
      simp [setWhy, setException, popn, he]
      omega

/-- Witness for C8 at a concrete frame state. -/
theorem c8_witness :
    (∀ e, 0 = 0 → (FrameState.mk 0 [] (some 3) 4 none).exception = some e →
       (byteRaiseVarargs (FrameState.mk 0 [] (some 3) 4 none) 0).why =
         some Why.reraise ∧
       (byteRaiseVarargs (FrameState.mk 0 [] (some 3) 4 none) 0).exception =
         some e) ∧
    (0 = 0 → (FrameState.mk 0 [] (some 3) 4 none).exception = none →
       (byteRaiseVarargs (FrameState.mk 0 [] (some 3) 4 none) 0).why =
         some Why.exc ∧
       (byteRaiseVarargs (FrameState.mk 0 [] (some 3) 4 none) 0).exception =
         some 4) ∧
    (0 < 0 →
       (byteRaiseVarargs (FrameState.mk 0 [] (some 3) 4 none) 0).why =
         some Why.exc ∧
       (byteRaiseVarargs (FrameState.mk 0 [] (some 3) 4 none) 0).exception =
         some 4 ∧
       (byteRaiseVarargs (FrameState.mk 0 [] (some 3) 4 none) 0).exception ≠
         (FrameState.mk 0 [] (some 3) 4 none).exception) :=
  c8_raise_varargs (FrameState.mk 0 [] (some 3) 4 none) 0
    (by intro t ht; cases ht; decide)

/-- Claim C9: the state returned by run_instruction never carries the
reraise or NoReturn signal; when the handler produced one of the two, the
returned signal is exception. -/
theorem c9_run_instruction_converts_signals (f : FrameState → FrameState)
    (st : FrameState) :
    (runInstruction f st).why ≠ some Why.reraise ∧
    (runInstruction f st).why ≠ some Why.noReturn ∧
    (((f st).why = some Why.reraise ∨ (f st).why = some Why.noReturn) →
       (runInstruction f st).why = some Why.exc) := by
  unfold runInstruction
  by_cases h : (f st).why = some Why.reraise ∨ (f st).why = some Why.noReturn
  · rw [if_pos h]
    refine ⟨by simp [setWhy], by simp [setWhy], fun _ => by simp [setWhy]⟩
  · rw [if_neg h]
    rw [not_or] at h
    exact ⟨h.1, h.2, fun hc => absurd hc (not_or.mpr h)⟩

/-- Witness for C9 at a concrete handler and state. -/
theorem c9_witness :
    (runInstruction (fun s => setWhy s Why.reraise)
        (FrameState.mk 0 [] none 0 none)).why ≠ some Why.reraise ∧
    (runInstruction (fun s => setWhy s Why.reraise)
        (FrameState.mk 0 [] none 0 none)).why ≠ some Why.noReturn ∧
    ((((fun s => setWhy s Why.reraise) (FrameState.mk 0 [] none 0 none)).why =
        some Why.reraise ∨
      ((fun s => setWhy s Why.reraise) (FrameState.mk 0 [] none 0 none)).why =
        some Why.noReturn) →
      (runInstruction (fun s => setWhy s Why.reraise)
          (FrameState.mk 0 [] none 0 none)).why = some Why.exc) :=
  c9_run_instruction_converts_signals (fun s => setWhy s Why.reraise)
    (FrameState.mk 0 [] none 0 none)

/-- The results collected by the pairing loop of call_binary_operator are
exactly the variables returned by the successful pairings, independently of
the error accumulator. -/
theorem binopLoop_results (env : Env) (node : Node) (name : String)
    (ps : List (B × B)) : ∀ err, (binopLoop env node name ps err).2.1 =
      ps.filterMap (fun p =>
        match callBinopOnBindings env node name p.1 p.2 with
        | .ok (_, some r) => some r
        | _ => none) := by
  induction ps with
  | nil => intro err; rfl
  | cons p rest ih =>
    intro err
    cases h : callBinopOnBindings env node name p.1 p.2 with
    | error e => simp [binopLoop, h, ih, List.filterMap_cons]
    | ok v =>
      cases v with
      | mk n r =>
        cases r with
        | none => simp [binopLoop, h, ih, List.filterMap_cons]
        | some rv => simp [binopLoop, h, ih, List.filterMap_cons]

/-- With report_errors off, call_binary_operator logs nothing. -/
theorem callBinaryOperator_noreport (env : Env) (node : Node) (name : String)
    (x y : Var) : (callBinaryOperator env node name x y false).2.2 = [] := by
  simp [callBinaryOperator]

/-- With a non-empty joined result, call_binary_operator logs nothing. -/
theorem callBinaryOperator_result_diags (env : Env) (node : Node)
    (name : String) (x y : Var) (rep : Bool)
    (h : (binopLoop env node name (binopPairs x y) none).2.1.flatten ≠ []) :
    (callBinaryOperator env node name x y rep).2.2 = [] := by
  rw [callBinaryOperator]
  have hne : (binopLoop env node name (binopPairs x y) none).2.1.flatten.isEmpty
      = false := by
    cases hh : (binopLoop env node name (binopPairs x y) none).2.1.flatten with
    | nil => exact absurd hh h
    | cons a t => rfl
  simp [hne]

/-- Membership in the diagnostics of the _cmp_rel classification loop:
exactly the unsupported-operands diagnostic, present when and only when
some pairing raises CmpTypeError on a reachable combination. -/
theorem cmpRelLoop_diags (env : Env) (node : Node) (opName : String)
    (x y : Var) (d : Diag) (ps : List (B × B)) :
    d ∈ (cmpRelLoop env node opName x y ps).2.2.2 ↔
      (d = Diag.unsupportedOperands opName x y ∧
       ∃ p ∈ ps, env.cmpRelFn opName p.1 p.2 = .error () ∧
         env.hasComb node [p.1, p.2] = true) := by
  induction ps with
  | nil => simp [cmpRelLoop]
  | cons p rest ih =>
    cases h : env.cmpRelFn opName p.1 p.2 with
    | error u =>
      cases u
      by_cases hcb : env.hasComb node [p.1, p.2] = true
      · simp [cmpRelLoop, h, hcb, ih, List.exists_mem_cons_iff]
        tauto
      · simp [cmpRelLoop, h, hcb, ih, List.exists_mem_cons_iff]
    | ok v =>
      cases v with
      | none =>
        simp [cmpRelLoop, h, ih, List.exists_mem_cons_iff]
      | some b =>
        simp [cmpRelLoop, h, ih, List.exists_mem_cons_iff]

/-- Claim C4: a call failure from one operand pairing is swallowed (a single
successful pairing suppresses every diagnostic); the unsupported-operands
diagnostic requires every pairing to have produced no result binding; and in
the relational-comparison path a CmpTypeError pairing is reported if and
only if the pair of bindings is a reachable combination at the node. -/
theorem c4_binop_failure_policy (env : Env) (node : Node) (name : String)
    (x y : Var) :
    ((∃ p ∈ binopPairs x y, ∃ n r,
        callBinopOnBindings env node name p.1 p.2 = .ok (n, some r) ∧
          r ≠ []) →
       (callBinaryOperator env node name x y true).2.2 = []) ∧
    (Diag.unsupportedOperands name x y ∈
        (callBinaryOperator env node name x y true).2.2 →
       ∀ p ∈ binopPairs x y, ∀ n r,
         callBinopOnBindings env node name p.1 p.2 = .ok (n, some r) →
           r = []) ∧
    (∀ opName,
       Diag.unsupportedOperands opName x y ∈
           (cmpRel env node opName x y).2.2 ↔
         ∃ p ∈ binopPairs x y, env.cmpRelFn opName p.1 p.2 = .error () ∧
           env.hasComb node [p.1, p.2] = true) := by
  have hres := binopLoop_results env node name (binopPairs x y) none
  refine ⟨?_, ?_, ?_⟩
  · rintro ⟨p, hp, n, r, hcall, hne⟩
    apply callBinaryOperator_result_diags
    intro hfl
    apply hne
    refine List.flatten_eq_nil_iff.mp hfl r ?_
    rw [hres]
    exact List.mem_filterMap.mpr ⟨p, hp, by rw [hcall]⟩
  · intro hmem p hp n r hcall
    by_cases hfl : (binopLoop env node name (binopPairs x y) none).2.1.flatten
        = []
    · refine List.flatten_eq_nil_iff.mp hfl r ?_
      rw [hres]
      exact List.mem_filterMap.mpr ⟨p, hp, by rw [hcall]⟩
    · rw [callBinaryOperator_result_diags env node name x y true hfl] at hmem
      exact absurd hmem (List.not_mem_nil _)
  · intro opName
    rw [cmpRel]
    by_cases hlx : (cmpRelLoop env node opName x y (binopPairs x y)).2.1.isEmpty
    · simp only [hlx, if_true]
      rw [cmpRelLoop_diags env node opName x y
        (Diag.unsupportedOperands opName x y) (binopPairs x y)]
      simp
    · simp only [hlx, Bool.false_eq_true, if_false, List.mem_append,
        callBinaryOperator_noreport, List.not_mem_nil, or_false]
      rw [cmpRelLoop_diags env node opName x y
        (Diag.unsupportedOperands opName x y) (binopPairs x y)]
      simp

/-- Witness for C4 at a concrete environment. -/
theorem c4_witness :
    ((∃ p ∈ binopPairs [1] [2], ∃ n r,
        callBinopOnBindings defaultEnv 0 "__add__" p.1 p.2 = .ok (n, some r) ∧
          r ≠ []) →
       (callBinaryOperator defaultEnv 0 "__add__" [1] [2] true).2.2 = []) ∧
    (Diag.unsupportedOperands "__add__" [1] [2] ∈
        (callBinaryOperator defaultEnv 0 "__add__" [1] [2] true).2.2 →
       ∀ p ∈ binopPairs [1] [2], ∀ n r,
         callBinopOnBindings defaultEnv 0 "__add__" p.1 p.2 = .ok (n, some r) →
           r = []) ∧
    (∀ opName,
       Diag.unsupportedOperands opName [1] [2] ∈
           (cmpRel defaultEnv 0 opName [1] [2]).2.2 ↔
         ∃ p ∈ binopPairs [1] [2], defaultEnv.cmpRelFn opName p.1 p.2 =
             .error () ∧
           defaultEnv.hasComb 0 [p.1, p.2] = true) :=
  c4_binop_failure_policy defaultEnv 0 "__add__" [1] [2]

/-- With report_errors off, _get_iter logs nothing. -/
theorem getIter_noreport_diags (env : Env) (node : Node) (seq : Var) :
    (getIter env node seq false).2.2 = [] := by
  cases hv : (loadAttrNoerror env node seq "__iter__").2 with
  | some f => simp [getIter, hv]
  | none => simp [getIter, hv]

/-- Counterexample for C5 as stated: two bindings that both have
__getitem__ (so neither lacks all three methods), and no __contains__ or
__iter__ anywhere, still produce an unsupported-operands diagnostic, because
the single ad hoc iterator binding is outnumbered by the two seq
bindings. -/
theorem c5_counterexample :
    Diag.unsupportedOperands "__contains__" [1, 2] [3] ∈
      (cmpIn c5Env 0 [3] [1, 2] true).2.2 ∧
    (∀ b ∈ ([1, 2] : Var), attrAbsent c5Env 0 b "__contains__" = true) ∧
    (∀ b ∈ ([1, 2] : Var), attrAbsent c5Env 0 b "__getitem__" = false) := by
  decide

/-- Claim C5 (amended): item-in-seq tries __contains__ first; when no
binding of seq has __contains__ it falls back to the iterator protocol
(__iter__ first, else __getitem__ with an int argument wrapped as an ad hoc
iterator, else an empty iterator variable), the unsupported-operands
diagnostic for __contains__ is emitted if and only if the fallback iterator
variable has strictly fewer bindings than seq, and the fallback result is a
plain boolean. -/
theorem c5_cmp_in_fallback (env : Env) (node : Node) (item seq : Var)
    (h : (retrieveAttr env node seq "__contains__").2.1 = none) :
    ((cmpIn env node item seq true).2.2 =
       if (getIter env (retrieveAttr env node seq "__contains__").1 seq
             false).2.1.length < seq.length then
         [Diag.unsupportedOperands "__contains__" seq item]
       else []) ∧
    ((cmpIn env node item seq true).2.1 =
       [⟨env.boolVal, [],
         (getIter env (retrieveAttr env node seq "__contains__").1 seq
            false).1⟩]) ∧
    (∀ n1, ∀ f, (retrieveAttr env n1 seq "__iter__").2.1 = some f →
       getIter env n1 seq false =
         ((env.callOk (retrieveAttr env n1 seq "__iter__").1
             (f.map RB.data) []).1,
          (env.callOk (retrieveAttr env n1 seq "__iter__").1
             (f.map RB.data) []).2, [])) ∧
    (∀ n1, (retrieveAttr env n1 seq "__iter__").2.1 = none →
       ∀ g, (retrieveAttr env (retrieveAttr env n1 seq "__iter__").1 seq
           "__getitem__").2.1 = some g →
         (getIter env n1 seq false).2.1 =
           [⟨env.iteratorOf
               ((env.callOk
                   (retrieveAttr env (retrieveAttr env n1 seq "__iter__").1
                     seq "__getitem__").1
                   (g.map RB.data) [[env.intVal]]).2.map RB.data),
             [],
             (env.callOk
                 (retrieveAttr env (retrieveAttr env n1 seq "__iter__").1
                   seq "__getitem__").1
                 (g.map RB.data) [[env.intVal]]).1⟩]) ∧
    (∀ n1, (retrieveAttr env n1 seq "__iter__").2.1 = none →
       (retrieveAttr env (retrieveAttr env n1 seq "__iter__").1 seq
           "__getitem__").2.1 = none →
       (getIter env n1 seq false).2.1 = []) := by
  refine ⟨?_, ?_, ?_, ?_, ?_⟩
  · simp [cmpIn, loadAttrNoerror, h, getIter_noreport_diags]
  · simp [cmpIn, loadAttrNoerror, h]
  · intro n1 f hf
    simp [getIter, loadAttrNoerror, hf]
  · intro n1 hnone g hg
    simp [getIter, loadAttrNoerror, hnone, hg]
  · intro n1 hnone hg
    simp [getIter, loadAttrNoerror, hnone, hg]

/-- Witness for C5 (amended) at a concrete environment. -/
theorem c5_witness :
    ((cmpIn c5Env 0 [3] [1, 2] true).2.2 =
       if (getIter c5Env (retrieveAttr c5Env 0 [1, 2] "__contains__").1 [1, 2]
             false).2.1.length < ([1, 2] : Var).length then
         [Diag.unsupportedOperands "__contains__" [1, 2] [3]]
       else []) ∧
    ((cmpIn c5Env 0 [3] [1, 2] true).2.1 =
       [⟨c5Env.boolVal, [],
         (getIter c5Env (retrieveAttr c5Env 0 [1, 2] "__contains__").1 [1, 2]
            false).1⟩]) ∧
    (∀ n1, ∀ f, (retrieveAttr c5Env n1 [1, 2] "__iter__").2.1 = some f →
       getIter c5Env n1 [1, 2] false =
         ((c5Env.callOk (retrieveAttr c5Env n1 [1, 2] "__iter__").1
             (f.map RB.data) []).1,
          (c5Env.callOk (retrieveAttr c5Env n1 [1, 2] "__iter__").1
             (f.map RB.data) []).2, [])) ∧
    (∀ n1, (retrieveAttr c5Env n1 [1, 2] "__iter__").2.1 = none →
       ∀ g, (retrieveAttr c5Env (retrieveAttr c5Env n1 [1, 2] "__iter__").1
           [1, 2] "__getitem__").2.1 = some g →
         (getIter c5Env n1 [1, 2] false).2.1 =
           [⟨c5Env.iteratorOf
               ((c5Env.callOk
                   (retrieveAttr c5Env
                     (retrieveAttr c5Env n1 [1, 2] "__iter__").1
                     [1, 2] "__getitem__").1
                   (g.map RB.data) [[c5Env.intVal]]).2.map RB.data),
             [],
             (c5Env.callOk
                 (retrieveAttr c5Env
                   (retrieveAttr c5Env n1 [1, 2] "__iter__").1
                   [1, 2] "__getitem__").1
                 (g.map RB.data) [[c5Env.intVal]]).1⟩]) ∧
    (∀ n1, (retrieveAttr c5Env n1 [1, 2] "__iter__").2.1 = none →
       (retrieveAttr c5Env (retrieveAttr c5Env n1 [1, 2] "__iter__").1 [1, 2]
           "__getitem__").2.1 = none →
       (getIter c5Env n1 [1, 2] false).2.1 = []) :=
  c5_cmp_in_fallback c5Env 0 [3] [1, 2] (by decide)

/-- Claim C6: unpacking a literal 4-tuple into three targets logs exactly
one bad-unpacking diagnostic with actual count 4 and expected count 3;
unpacking an indefinite iterable logs nothing and binds each of the three
targets to the result of calling __next__ on the iterator obtained from the
sequence. -/
theorem c6_unpack_sequence :
    (unpackSequence c6Env 0 [100] 3 (-1)).2.2 = [Diag.badUnpacking 4 3] ∧
    (unpackSequence c6Env 0 [200] 3 (-1)).2.2 = [] ∧
    (unpackSequence c6Env 0 [200] 3 (-1)).2.1 = [[60], [60], [60]] ∧
    ((callMethod c6Env 0 [51] "__next__" []).2.1).map RB.data = [60] ∧
    (getIter c6Env 0 [200] true).2.1.map RB.data = [51] := by
  decide

/-- The variable pushed by byte_LOAD_NAME is pushedVal, which does not
mention the diagnostic-details oracle. -/
theorem byteLoadName_fst (env : Env) (name : String) :
    (byteLoadName env name).1 = pushedVal env name := by
  cases h1 : loadLocal env name with
  | some v => simp [byteLoadName, pushedVal, lookupChain, h1, Option.orElse]
  | none =>
    cases h2 : env.globals name with
    | some v =>
      simp [byteLoadName, pushedVal, lookupChain, h1, h2, Option.orElse]
    | none =>
      by_cases hp : isPrivate name = true
      · by_cases hw : env.hasUnknownWildcardImports = true <;>
          by_cases ha : env.lateAnnotActive = true <;>
            simp [byteLoadName, pushedVal, lookupChain, nameErrorOrLateAnnot,
              h1, h2, hp, hw, ha, Option.orElse]
      · cases h3 : loadBuiltin env name with
        | some v =>
          simp [byteLoadName, pushedVal, lookupChain, h1, h2, h3, hp,
            Option.orElse]
        | none =>
          by_cases hw : env.hasUnknownWildcardImports = true <;>
            by_cases ha : env.lateAnnotActive = true <;>
              simp [byteLoadName, pushedVal, lookupChain, nameErrorOrLateAnnot,
                h1, h2, h3, hp, hw, ha, Option.orElse]

/-- Counterexample for C7 as stated: the private name _x is defined in
builtins but byte_LOAD_NAME never consults builtins for it; it logs a name
error instead of resolving it, so the three-step chain of the claim
disagrees with the code. -/
theorem c7_counterexample :
    byteLoadName c7Env "_x" ≠ loadNameClaimC7 c7Env "_x" ∧
    (c7Env.builtins "_x").isSome = true ∧
    Diag.nameError "_x" none ∈ (byteLoadName c7Env "_x").2 := by
  decide

/-- Claim C7 (amended): an unqualified name load resolves locals, then
globals, then builtins, except that a name with exactly one leading
underscore skips the builtins step; on failure it synthesizes a late
annotation placeholder or logs a name error with an unknown value, unless
the name is non-private and an unknown wildcard import is in scope, in
which case an unknown is pushed silently; and the diagnostic-details
computation never changes the pushed value. -/
theorem c7_load_name_resolution (env : Env) (name : String) :
    byteLoadName env name = loadNameAmendedSpec env name ∧
    (∀ d, (byteLoadName { env with nameErrorDetails := d } name).1 =
       (byteLoadName env name).1) := by
  constructor
  · cases h1 : loadLocal env name with
    | some v =>
      simp [byteLoadName, loadNameAmendedSpec, lookupChain, h1, Option.orElse]
    | none =>
      cases h2 : env.globals name with
      | some v =>
        simp [byteLoadName, loadNameAmendedSpec, lookupChain, h1, h2,
          Option.orElse]
      | none =>
        cases h3 : (if isPrivate name then none else loadBuiltin env name) with
        | some v =>
          simp [byteLoadName, loadNameAmendedSpec, lookupChain, h1, h2, h3,
            Option.orElse]
        | none =>
          by_cases hp : isPrivate name = true <;>
            by_cases hw : env.hasUnknownWildcardImports = true <;>
              simp [byteLoadName, loadNameAmendedSpec, lookupChain, h1, h2,
                h3, hp, hw, Option.orElse]
  · intro d
    rw [byteLoadName_fst, byteLoadName_fst]
    rfl

/-- Witness for C7 (amended) at a concrete environment. -/
theorem c7_witness :
    byteLoadName c7Env "_x" = loadNameAmendedSpec c7Env "_x" ∧
    (∀ d, (byteLoadName { c7Env with nameErrorDetails := d } "_x").1 =
       (byteLoadName c7Env "_x").1) :=
  c7_load_name_resolution c7Env "_x"

/-- Counterexample for C10 as stated: a frame with a declared return
annotation whose blocks complete only by raising ends with the annotation
instance (value 99) in the return variable, not the NoReturn value. -/
theorem c10_counterexample :
    runFrameReturn c10Env 0 [⟨some Why.exc, 3⟩] [] = [⟨99, [], 0⟩] ∧
    returnNodes [⟨some Why.exc, 3⟩] ≠ [] ∧
    canReturn [⟨some Why.exc, 3⟩] = false ∧
    (∀ rb ∈ runFrameReturn c10Env 0 [⟨some Why.exc, 3⟩] [],
       rb.data ≠ c10Env.noReturnVal) := by decide

/-- Claim C10 (amended): starting from the empty return variable, run_frame
leaves exactly one unsolvable binding at the entry node when no block
completed; when blocks completed but none via return or yield it leaves the
NoReturn value at the join of the completing nodes, except that a declared
return annotation replaces it by an instance of the annotation
(_set_frame_return); in both cases, for a frame without an annotation, the
return variable ends non-empty. -/
theorem c10_run_frame_return (env : Env) (node : Node)
    (outcomes : List BlockOutcome) :
    (returnNodes outcomes = [] →
       runFrameReturn env node outcomes [] = [⟨env.unsolvable, [], node⟩]) ∧
    (returnNodes outcomes ≠ [] → canReturn outcomes = false →
       runFrameReturn env node outcomes [] =
         setFrameReturn env (env.joinNodes (returnNodes outcomes))
           [⟨env.noReturnVal, [], env.joinNodes (returnNodes outcomes)⟩]) ∧
    (env.allowedReturns = none → canReturn outcomes = false →
       runFrameReturn env node outcomes [] ≠ []) := by
  refine ⟨?_, ?_, ?_⟩
  · intro h
    simp [runFrameReturn, h]
  · intro h hc
    simp [runFrameReturn, h, hc]
  · intro ha hc
    by_cases h : returnNodes outcomes = []
    · simp [runFrameReturn, h]
    · simp [runFrameReturn, h, hc, setFrameReturn, ha]

/-- Witness for C10 at a concrete environment and outcome list. -/
theorem c10_witness :
    (returnNodes [] = [] →
       runFrameReturn defaultEnv 0 [] [] =
         [⟨defaultEnv.unsolvable, [], 0⟩]) ∧
    (returnNodes [] ≠ [] → canReturn [] = false →
       runFrameReturn defaultEnv 0 [] [] =
         setFrameReturn defaultEnv (defaultEnv.joinNodes (returnNodes []))
           [⟨defaultEnv.noReturnVal, [], defaultEnv.joinNodes (returnNodes [])⟩]) ∧
    (defaultEnv.allowedReturns = none → canReturn [] = false →
       runFrameReturn defaultEnv 0 [] [] ≠ []) :=
  c10_run_frame_return defaultEnv 0 []

end Pytype
